import Mathlib

/- Verification of the concurrent copy engine of batchcopy.py: the ThreadedCopy
   class (worker loop, task queue, planner, stop) and the session orchestration
   in BatchCopy._on_start.  Paths are strings, file contents are byte lists,
   and the filesystem is an association list from absolute paths to entries. -/

/-- Entry of the modelled filesystem: a regular file with its byte content, or
a symbolic link storing its target path. -/
inductive Entry where
  | file (content : List Nat)
  | symlink (target : String)
deriving DecidableEq

/-- Filesystem: an association list from absolute path to entry.  Earlier
bindings shadow later ones, so insertion is done by prepending. -/
abbrev FS := List (String × Entry)

/-- Lookup of a path, first binding wins. -/
def fsLookup : FS → String → Option Entry
  | [], _ => none
  | (q, e) :: rest, p => if q = p then some e else fsLookup rest p

/-- Creation or overwrite of the entry at a path. -/
def fsInsert (fs : FS) (p : String) (e : Entry) : FS := (p, e) :: fs

/-- Model of os.remove: drop every binding of the path. -/
def fsRemove (fs : FS) (p : String) : FS := fs.filter (fun pe => decide (pe.1 ≠ p))

/-- Characters after the last separator of a path, accumulated left to right. -/
def after_last_sep : List Char → List Char → List Char
  | [], acc => acc
  | c :: rest, acc => if c = '/' then after_last_sep rest [] else after_last_sep rest (acc ++ [c])

/-- Model of os.path.basename for the slash-separated absolute paths used here:
the characters after the last separator. -/
def basename (p : String) : String := String.mk (after_last_sep p.toList [])

/-- Test that a path ends in the separator. -/
def ends_with_sep (s : String) : Bool := s.toList.getLast? == some '/'

/-- Model of os.path.join specialised to the call sites: all paths are already
absolute (os.path.abspath is the identity on them), and a left part that
already ends in the separator (the planner's destination directory, line 109)
is joined without a second separator. -/
def pjoin (a b : String) : String := if ends_with_sep a then a ++ b else a ++ "/" ++ b

/-- CopyTask handed to ThreadedCopy.put and dequeued by _worker_func: a source
path and a destination directory.  Python None is Option.none; the empty
string is also falsy in the worker's test at line 40. -/
structure CopyTask where
  source : Option String
  dest : Option String
deriving DecidableEq

/-- Python truthiness of an optional string (None and the empty string are
falsy). -/
def truthyOpt : Option String → Bool
  | none => false
  | some s => !(s == "")

/-- Truthiness test applied by the worker to both fields of a task. -/
def truthy (t : CopyTask) : Bool := truthyOpt t.source && truthyOpt t.dest

/-- Destination path used by shutil.copy when the destination names a directory
(the call sites always pass the destination directory ending in the
separator): the directory plus the source's basename. -/
def shutil_dest_path (dst src : String) : String :=
  if ends_with_sep dst then dst ++ basename src else dst

/-- Model of shutil.copy(source, dest, follow_symlinks=False) as called at line
42: dest is the destination directory, so the written path is dest plus the
source's basename (the original filename is preserved); with
follow_symlinks=False a symbolic-link source is reproduced as a symbolic link
to the same target and a regular file is copied byte for byte, so the entry is
stored unchanged.  A missing source raises, modelled as Except.error carrying
the str(e) text. -/
def shutil_copy_nofollow (fs : FS) (src dst : String) : Except String FS :=
  match fsLookup fs src with
  | none => Except.error ("No such file or directory: " ++ src)
  | some e => Except.ok (fsInsert fs (shutil_dest_path dst src) e)

/-- Outcome of one pass of the worker loop: run the next iteration, or leave
the loop (the break at line 46). -/
inductive IterOutcome where
  | continued
  | exitLoop
deriving DecidableEq

namespace ThreadedCopy

/-- One pass of the _worker_func loop body (lines 37-50) on a dequeued task.
`fault` is an environmental I/O fault (permission denied, disk full, missing
destination directory, device removed) raised inside shutil.copy, carrying the
Python str(e) text; None means the environment raises nothing.  The result is
the loop outcome, the value of copied_file_count after the pass (the increment
at line 44 runs under self.lock, hence is one atomic update), the filesystem
after the pass, and the log lines emitted during the pass, in order.
task_done is called in every case (the finally at line 49). -/
def worker_iteration (fault : Option String) (stopping : Bool) (copied : Nat)
    (fs : FS) (t : CopyTask) : IterOutcome × Nat × FS × List String :=
  if truthyOpt t.source && truthyOpt t.dest && !stopping then
    let src := t.source.getD ""
    match fault with
    | some msg =>
      (IterOutcome.continued, copied, fs, ["Copying " ++ src, "Error copying: " ++ msg])
    | none =>
      match shutil_copy_nofollow fs src (t.dest.getD "") with
      | Except.ok fs' => (IterOutcome.continued, copied + 1, fs', ["Copying " ++ src])
      | Except.error msg =>
        (IterOutcome.continued, copied, fs, ["Copying " ++ src, "Error copying: " ++ msg])
  else
    (IterOutcome.exitLoop, copied, fs, [])

/-- Pool state seen by ThreadedCopy.stop: the stopping flag, the queue contents
and the number of started worker threads (the length of self._threads, which
start() fills with the threads it started). -/
structure Pool where
  stopping : Bool
  queue : List CopyTask
  threads : Nat
deriving DecidableEq

/-- ThreadedCopy.stop (lines 65-73): set the stopping flag, enqueue one
(None, None) sentinel per started thread, then join each thread with timeout 2.
The second component records the timeout passed to each join call; a thread
that does not finish within it is left behind. -/
def stop (p : Pool) : Pool × List Nat :=
  (Pool.mk true (p.queue ++ List.replicate p.threads (CopyTask.mk none none)) p.threads,
    List.replicate p.threads 2)

/-- Model of os.path.getsize, for regular files (the planner's policy concerns
regular files collected by os.path.isfile; on any other entry the call is
treated as failing, which the planner's try block catches). -/
def getsize (fs : FS) (p : String) : Option Nat :=
  match fsLookup fs p with
  | some (Entry.file c) => some c.length
  | _ => none

/-- State threaded through ThreadedCopy.init's planning loop: the filesystem,
the queued tasks (self._file_queue), total_file_count and the log lines. -/
structure PlanState where
  fs : FS
  queue : List CopyTask
  total : Nat
  logs : List String
deriving DecidableEq

/-- Lines 119-134 of init: processing of one filename found in one source
subfolder.  `source` is the source subfolder (source root joined with the
folder name) and `destination` the matching destination subfolder path ending
in the separator.  If the destination file exists with the same size the file
is skipped with a log line; if it exists with a different size it is deleted
with a log line and a task is still queued with total_file_count incremented;
if it does not exist a task is queued with total_file_count incremented.  A
stat failure on either side in the size comparison is caught by the inner
except and logged, queuing nothing.  Faults of os.remove itself are not
modelled. -/
def process_file (ps : PlanState) (source destination filename : String) : PlanState :=
  let source_file := pjoin source filename
  let destination_file := pjoin destination filename
  if (fsLookup ps.fs destination_file).isSome then
    match getsize ps.fs destination_file, getsize ps.fs source_file with
    | some ds, some ss =>
      if ds = ss then
        PlanState.mk ps.fs ps.queue ps.total
          (ps.logs ++ ["Skipping '" ++ source_file ++ "': destination '" ++
            destination_file ++ "' already exists"])
      else
        PlanState.mk (fsRemove ps.fs destination_file)
          (ps.queue ++ [CopyTask.mk (some source_file) (some destination)])
          (ps.total + 1)
          (ps.logs ++ ["Deleting '" ++ destination_file ++ "'"])
    | _, _ =>
      PlanState.mk ps.fs ps.queue ps.total
        (ps.logs ++ ["Error copying '" ++ source_file ++ "': stat failed"])
  else
    PlanState.mk ps.fs (ps.queue ++ [CopyTask.mk (some source_file) (some destination)])
      (ps.total + 1) ps.logs

/-- Modelled from the spec: Helpers.get_subdirs (helpers.py is not under src/).
The Volume/Directory Helper lists the immediate subdirectories of a root whose
name starts with the given string, case-sensitively; `subdirNames root` stands
for the environment's listing of the immediate subdirectory names of root. -/
def get_subdirs (subdirNames : String → List String) (root startsw : String) : List String :=
  (subdirNames root).filter (fun d => startsw.toList.isPrefixOf d.toList)

/-- Lines 90-92 of init: a discovered name is appended to the folders list only
when it is not already present. -/
def insert_new (folders : List String) (d : String) : List String :=
  if d ∈ folders then folders else folders ++ [d]

/-- Lines 86-92 of init: the nested loops over sources, name beginnings and
discovered subdirectory names, growing the folders list with insert_new. -/
def collect_folders (subdirNames : String → List String)
    (sources startswith : List String) : List String :=
  sources.foldl (fun folders s =>
    startswith.foldl (fun folders p =>
      (get_subdirs subdirNames s p).foldl insert_new folders) folders) []

/-- Full enumeration, in loop order, of the subdirectory names returned across
all sources and all name beginnings. -/
def all_subdirs (subdirNames : String → List String)
    (sources startswith : List String) : List String :=
  sources.flatMap (fun s => startswith.flatMap (fun p => get_subdirs subdirNames s p))

/-- Reference first-occurrence de-duplication: keep the first occurrence of
each name, in first-seen order. -/
def first_seen : List String → List String
  | [] => []
  | d :: rest => d :: first_seen (rest.filter (fun x => decide (x ≠ d)))
termination_by l => l.length
decreasing_by
  simp only [List.length_cons]
  exact Nat.lt_succ_of_le (List.length_filter_le _ _)

/-- State of target folder creation (lines 94-101): the directory paths that
exist and the os.mkdir calls made so far. -/
structure MkdirState where
  dirs : List String
  calls : List String
deriving DecidableEq

/-- Creation of one destination subfolder (lines 96-101): os.mkdir is called
only when the path does not exist, and a FileExistsError from a race is
swallowed, so the operation is total and tolerates an existing directory. -/
def ensure_dir (st : MkdirState) (p : String) : MkdirState :=
  if p ∈ st.dirs then st else MkdirState.mk (st.dirs ++ [p]) (st.calls ++ [p])

/-- Lines 94-101 of init: create destination/<name> for every collected folder
name. -/
def create_target_folders (st : MkdirState) (target : String)
    (folders : List String) : MkdirState :=
  folders.foldl (fun st f => ensure_dir st (pjoin target f)) st

end ThreadedCopy

/-- Shared session state during the copying phase: the queue contents,
copied_file_count, total_file_count, the stopping flag and the filesystem. -/
structure SessionState where
  queue : List CopyTask
  copied : Nat
  total : Nat
  stopping : Bool
  fs : FS

/-- Number of queued tasks that pass the worker's truthiness test. -/
def countTruthy (l : List CopyTask) : Nat := l.countP (fun t => truthy t)

/-- Interleaved execution steps of the copying phase: some worker runs one loop
pass on the head of the queue (the queue hand-off is exclusive and the counter
update runs under self.lock, so one pass is one atomic step whose fault oracle
chooses whether the copy raises), or stop() sets the stopping flag, or stop()
enqueues a sentinel. -/
inductive Step : SessionState → SessionState → Prop where
  | work (s : SessionState) (fault : Option String) (t : CopyTask) (rest : List CopyTask)
      (out : IterOutcome) (c' : Nat) (fs' : FS) (lg : List String)
      (hq : s.queue = t :: rest)
      (hw : ThreadedCopy.worker_iteration fault s.stopping s.copied s.fs t = (out, c', fs', lg)) :
      Step s (SessionState.mk rest c' s.total s.stopping fs')
  | set_stopping (s : SessionState) :
      Step s (SessionState.mk s.queue s.copied s.total true s.fs)
  | put_sentinel (s : SessionState) :
      Step s (SessionState.mk (s.queue ++ [CopyTask.mk none none]) s.copied s.total s.stopping s.fs)

/-- Reachability along session steps. -/
abbrev Reach : SessionState → SessionState → Prop := Relation.ReflTransGen Step

/-- One successful worker pass by one of W pool workers: a task is dequeued
exclusively, its copy succeeds, and the counter is incremented by exactly
one. -/
def OkStep (W : Nat) (s s' : SessionState) : Prop :=
  ∃ w, w < W ∧ ∃ t rest fs' lg,
    s.queue = t :: rest ∧
    ThreadedCopy.worker_iteration none s.stopping s.copied s.fs t =
      (IterOutcome.continued, s.copied + 1, fs', lg) ∧
    s' = SessionState.mk rest (s.copied + 1) s.total s.stopping fs'

/-- Bytes per GB as used at lines 383-384. -/
def GBbytes : Nat := 1073741824

/-- round(bytes / 1073741824, 1) expressed in tenths of a GB: the value
10 * bytes / 2^30 rounded to the nearest integer, ties to even (Python's
round over floats, idealised to exact rationals). -/
def roundDeci (bytes : Nat) : Nat :=
  let q := (10 * bytes) / GBbytes
  let r := (10 * bytes) % GBbytes
  if 2 * r < GBbytes then q
  else if GBbytes < 2 * r then q + 1
  else if q % 2 = 0 then q else q + 1

/-- Result of the pre-flight gate of BatchCopy._on_start: abort with the
required-vs-available report (in tenths of a GB, as shown to the user), or
start with the planned tasks. -/
inductive StartResult where
  | aborted (requiredDeci availableDeci : Nat)
  | started (tasks : List CopyTask)
deriving DecidableEq

/-- Lines 383-390 of BatchCopy._on_start: the space gate.  The used and free
byte counts come from the external space-query helpers (Helpers.get_used_space
and Helpers.get_free_space, modelled from the spec as inputs).  The session
aborts with the required-vs-available report when the rounded free GB is not
strictly greater than the rounded required GB; only otherwise does start_copy
run, plan and copy. -/
def on_start_space (used free : Nat) (plan : List CopyTask) : StartResult :=
  if roundDeci free ≤ roundDeci used then
    StartResult.aborted (roundDeci used) (roundDeci free)
  else StartResult.started plan

/-- Python int() of a rational: truncation toward zero. -/
def py_int (q : ℚ) : ℤ := if 0 ≤ q then ⌊q⌋ else -⌊-q⌋

/-- Line 401: duration = int(end - start) + 1. -/
def duration_seconds (elapsed : ℚ) : ℤ := py_int elapsed + 1

/-- Lines 395-404: the final summary line of start_copy when at least one task
was planned, the nothing-to-copy line otherwise. -/
def finish_message (copied total : Nat) (elapsed : ℚ) : String :=
  if 0 < total then
    "\n++ Finished copying " ++ toString copied ++ " of " ++ toString total ++
      " files in " ++ toString (duration_seconds elapsed) ++ "s. ++\n\n"
  else "\n++ Finished. Nothing to copy. ++\n\n"

/-- Helper: the destination path of shutil.copy under a directory destination
is the directory followed by the source's basename. -/
theorem shutil_dest_path_dir (dd src : String) (hdir : ends_with_sep dd = true) :
    shutil_dest_path dd src = dd ++ basename src := by
  unfold shutil_dest_path
  rw [hdir]
  simp

/-- C3: a non-sentinel task dequeued while the pool is not stopping is copied
into the destination directory under the source's original filename, a
symbolic-link source is stored as a symbolic link to the same target (not
dereferenced), and on success copied_file_count grows by exactly one, the
increment running under the lock. -/
theorem worker_copy_success (copied : Nat) (fs : FS) (src dd : String) (e : Entry)
    (hs : src ≠ "") (hd : dd ≠ "") (hdir : ends_with_sep dd = true)
    (hsrc : fsLookup fs src = some e) :
    ThreadedCopy.worker_iteration none false copied fs (CopyTask.mk (some src) (some dd)) =
      (IterOutcome.continued, copied + 1, fsInsert fs (dd ++ basename src) e,
        ["Copying " ++ src])
    ∧ (∀ tgt, e = Entry.symlink tgt →
        fsLookup (fsInsert fs (dd ++ basename src) e) (dd ++ basename src) =
          some (Entry.symlink tgt)) := by
  have hpath := shutil_dest_path_dir dd src hdir
  constructor
  · simp [ThreadedCopy.worker_iteration, shutil_copy_nofollow, truthyOpt, hs, hd, hsrc, hpath]
  · intro tgt htgt
    subst htgt
    simp [fsInsert, fsLookup]

/-- Concrete run of worker_copy_success: a symbolic-link source is reproduced
as a link in the destination directory and the counter moves from 0 to 1. -/
theorem worker_copy_success_witness :
    ThreadedCopy.worker_iteration none false 0
        [("/cards/A/VID_001/link.insv", Entry.symlink "/cards/A/real.insv")]
        (CopyTask.mk (some "/cards/A/VID_001/link.insv") (some "/dest/VID_001/")) =
      (IterOutcome.continued, 0 + 1,
        fsInsert [("/cards/A/VID_001/link.insv", Entry.symlink "/cards/A/real.insv")]
          ("/dest/VID_001/" ++ basename "/cards/A/VID_001/link.insv")
          (Entry.symlink "/cards/A/real.insv"),
        ["Copying " ++ "/cards/A/VID_001/link.insv"])
    ∧ (∀ tgt, Entry.symlink "/cards/A/real.insv" = Entry.symlink tgt →
        fsLookup
          (fsInsert [("/cards/A/VID_001/link.insv", Entry.symlink "/cards/A/real.insv")]
            ("/dest/VID_001/" ++ basename "/cards/A/VID_001/link.insv")
            (Entry.symlink "/cards/A/real.insv"))
          ("/dest/VID_001/" ++ basename "/cards/A/VID_001/link.insv") =
          some (Entry.symlink tgt)) :=
  worker_copy_success 0 _ _ _ _ (by decide) (by decide) (by decide) (by decide)

/-- C4: stop sets the stopping flag, enqueues exactly one (None, None) sentinel
per started worker thread, joins each started thread with timeout 2, and a
worker that dequeues a sentinel exits its loop at once without touching the
counter or the filesystem. -/
theorem stop_contract (p : ThreadedCopy.Pool) :
    (ThreadedCopy.stop p).1.stopping = true
    ∧ (ThreadedCopy.stop p).1.queue =
        p.queue ++ List.replicate p.threads (CopyTask.mk none none)
    ∧ (List.replicate p.threads (CopyTask.mk none none)).length = p.threads
    ∧ (ThreadedCopy.stop p).2 = List.replicate p.threads 2
    ∧ ∀ (fault : Option String) (stopping : Bool) (c : Nat) (fs : FS),
        ThreadedCopy.worker_iteration fault stopping c fs (CopyTask.mk none none) =
          (IterOutcome.exitLoop, c, fs, []) := by
  refine ⟨rfl, rfl, List.length_replicate _ _, rfl, ?_⟩
  intro fault stopping c fs
  rfl

/-- C10: any dequeued task with a falsy (None or empty-string) field makes the
worker leave its loop at once, with no copy, no log and no counter change;
this covers more than the designated double-None sentinel. -/
theorem falsy_field_exits_worker (fault : Option String) (stopping : Bool) (c : Nat)
    (fs : FS) (t : CopyTask)
    (h : truthyOpt t.source = false ∨ truthyOpt t.dest = false) :
    ThreadedCopy.worker_iteration fault stopping c fs t = (IterOutcome.exitLoop, c, fs, []) := by
  unfold ThreadedCopy.worker_iteration
  rcases h with h | h <;> simp [h]

/-- Concrete run of falsy_field_exits_worker: a task with an empty source
string and a valid destination silently terminates one worker. -/
theorem falsy_field_exits_worker_witness :
    ThreadedCopy.worker_iteration none false 0 []
        (CopyTask.mk (some "") (some "/dest/VID_001/")) =
      (IterOutcome.exitLoop, 0, [], []) :=
  falsy_field_exits_worker none false 0 [] _ (Or.inl (by decide))

/-- C5 (amended): a copy fault makes the worker log the error with its reason
(the str(e) text), keep the counter and filesystem unchanged, and continue
with the next task, so the failure stops neither the session nor the other
workers; the source path appears in the preceding "Copying" line rather than
in the error line itself. -/
theorem worker_error_nonfatal (msg : String) (c : Nat) (fs : FS) (src dd : String)
    (hs : src ≠ "") (hd : dd ≠ "") :
    ThreadedCopy.worker_iteration (some msg) false c fs (CopyTask.mk (some src) (some dd)) =
      (IterOutcome.continued, c, fs, ["Copying " ++ src, "Error copying: " ++ msg]) := by
  unfold ThreadedCopy.worker_iteration
  simp [truthyOpt, hs, hd]

/-- Concrete run of worker_error_nonfatal: a permission fault is logged and the
counter stays at 4. -/
theorem worker_error_nonfatal_witness :
    ThreadedCopy.worker_iteration (some "[Errno 13] Permission denied") false 4 []
        (CopyTask.mk (some "/cards/A/VID_001/f1.bin") (some "/dest/VID_001/")) =
      (IterOutcome.continued, 4, [],
        ["Copying " ++ "/cards/A/VID_001/f1.bin",
          "Error copying: " ++ "[Errno 13] Permission denied"]) :=
  worker_error_nonfatal "[Errno 13] Permission denied" 4 [] _ _ (by decide) (by decide)

/-- C5 (counterexample): on a disk-full fault the error line carries only the
reason text and the source path is not contained in the error log line, so the
error is not logged together with the source path. -/
theorem worker_error_line_lacks_source_path :
    ThreadedCopy.worker_iteration (some "[Errno 28] No space left on device") false 0 []
        (CopyTask.mk (some "/cards/A/VID_001/f1.bin") (some "/dest/VID_001/")) =
      (IterOutcome.continued, 0, [],
        ["Copying /cards/A/VID_001/f1.bin",
          "Error copying: [Errno 28] No space left on device"])
    ∧ ¬ (("/cards/A/VID_001/f1.bin").toList <:+:
        ("Error copying: [Errno 28] No space left on device").toList) :=
  ⟨by decide, by decide⟩

/-- C2: for a source file of known size, the planner skips with a log line when
the destination file exists with equal byte size, deletes the destination file
(logging the deletion) and still queues a copy task when it exists with a
different size, and queues a copy task when no destination file exists; every
queued task pairs the source file path with the destination directory. -/
theorem plan_skip_delete_copy (ps : ThreadedCopy.PlanState)
    (source destination filename : String) (sc : List Nat)
    (hsrc : fsLookup ps.fs (pjoin source filename) = some (Entry.file sc)) :
    (∀ dc : List Nat,
      fsLookup ps.fs (pjoin destination filename) = some (Entry.file dc) →
      dc.length = sc.length →
      ThreadedCopy.process_file ps source destination filename =
        ThreadedCopy.PlanState.mk ps.fs ps.queue ps.total
          (ps.logs ++ ["Skipping '" ++ pjoin source filename ++ "': destination '" ++
            pjoin destination filename ++ "' already exists"]))
    ∧ (∀ dc : List Nat,
      fsLookup ps.fs (pjoin destination filename) = some (Entry.file dc) →
      dc.length ≠ sc.length →
      ThreadedCopy.process_file ps source destination filename =
        ThreadedCopy.PlanState.mk (fsRemove ps.fs (pjoin destination filename))
          (ps.queue ++ [CopyTask.mk (some (pjoin source filename)) (some destination)])
          (ps.total + 1)
          (ps.logs ++ ["Deleting '" ++ pjoin destination filename ++ "'"]))
    ∧ (fsLookup ps.fs (pjoin destination filename) = none →
      ThreadedCopy.process_file ps source destination filename =
        ThreadedCopy.PlanState.mk ps.fs
          (ps.queue ++ [CopyTask.mk (some (pjoin source filename)) (some destination)])
          (ps.total + 1) ps.logs) := by
  refine ⟨?_, ?_, ?_⟩
  · intro dc hdst hlen
    simp [ThreadedCopy.process_file, ThreadedCopy.getsize, hsrc, hdst, hlen]
  · intro dc hdst hlen
    simp [ThreadedCopy.process_file, ThreadedCopy.getsize, hsrc, hdst, hlen]
  · intro hdst
    simp [ThreadedCopy.process_file, ThreadedCopy.getsize, hsrc, hdst]

/-- Concrete run of plan_skip_delete_copy, size-mismatch branch: the stale
2-byte destination copy of a 3-byte source is deleted, the deletion is logged,
and a task is still queued with the total incremented. -/
theorem plan_skip_delete_copy_witness :
    ThreadedCopy.process_file
        (ThreadedCopy.PlanState.mk
          [("/dst/VID_001/f1.bin", Entry.file [1, 2]),
            ("/cards/A/VID_001/f1.bin", Entry.file [1, 2, 3])] [] 0 [])
        "/cards/A/VID_001" "/dst/VID_001/" "f1.bin" =
      ThreadedCopy.PlanState.mk
        (fsRemove
          [("/dst/VID_001/f1.bin", Entry.file [1, 2]),
            ("/cards/A/VID_001/f1.bin", Entry.file [1, 2, 3])] (pjoin "/dst/VID_001/" "f1.bin"))
        ([] ++ [CopyTask.mk (some (pjoin "/cards/A/VID_001" "f1.bin")) (some "/dst/VID_001/")])
        (0 + 1)
        ([] ++ ["Deleting '" ++ pjoin "/dst/VID_001/" "f1.bin" ++ "'"]) :=
  (plan_skip_delete_copy
      (ThreadedCopy.PlanState.mk
        [("/dst/VID_001/f1.bin", Entry.file [1, 2]),
          ("/cards/A/VID_001/f1.bin", Entry.file [1, 2, 3])] [] 0 [])
      "/cards/A/VID_001" "/dst/VID_001/" "f1.bin" [1, 2, 3] (by decide)).2.1
    [1, 2] (by decide) (by decide)


/-- Helper: one worker pass raises the counter by at most one, and only on a
task whose two fields are truthy. -/
theorem worker_iteration_counter_le (fault : Option String) (stopping : Bool)
    (c : Nat) (fs : FS) (t : CopyTask) (out : IterOutcome) (c' : Nat) (fs' : FS)
    (lg : List String)
    (h : ThreadedCopy.worker_iteration fault stopping c fs t = (out, c', fs', lg)) :
    c' ≤ c + (if truthy t = true then 1 else 0) := by
  unfold ThreadedCopy.worker_iteration at h
  by_cases hc : (truthyOpt t.source && truthyOpt t.dest && !stopping) = true
  · have ht : truthy t = true := by
      have := (Bool.and_eq_true _ _).mp hc
      unfold truthy
      exact this.1
    rw [if_pos hc] at h
    have hif : (if truthy t = true then 1 else 0) = 1 := by simp [ht]
    rw [hif]
    cases fault with
    | some msg =>
      injection h with h1 h
      injection h with h2 h
      omega
    | none =>
      cases hsc : shutil_copy_nofollow fs (t.source.getD "") (t.dest.getD "") with
      | ok fs2 =>
        simp only [hsc, Prod.mk.injEq] at h
        omega
      | error msg =>
        simp only [hsc, Prod.mk.injEq] at h
        omega
  · rw [if_neg hc] at h
    injection h with h1 h
    injection h with h2 h
    omega

/-- Helper: the sentinel and every other non-truthy task contribute nothing to
the truthy count, so appending a sentinel leaves it unchanged. -/
theorem countTruthy_append_sentinel (l : List CopyTask) :
    countTruthy (l ++ [CopyTask.mk none none]) = countTruthy l := by
  unfold countTruthy
  rw [List.countP_append]
  simp [truthy, truthyOpt]

/-- Helper: every session step preserves the bound copied + truthy-queued <=
total. -/
theorem step_preserves_bound (s s' : SessionState) (hstep : Step s s')
    (hinv : s.copied + countTruthy s.queue ≤ s.total) :
    s'.copied + countTruthy s'.queue ≤ s'.total := by
  cases hstep with
  | work fault t rest out c' fs' lg hq hw =>
    have hc := worker_iteration_counter_le _ _ _ _ _ _ _ _ _ hw
    rw [hq] at hinv
    unfold countTruthy at hinv ⊢
    rw [List.countP_cons] at hinv
    dsimp only
    cases htt : truthy t with
    | false =>
      simp [htt] at hc hinv
      omega
    | true =>
      simp [htt] at hc hinv
      omega
  | set_stopping =>
    exact hinv
  | put_sentinel =>
    simp only [countTruthy_append_sentinel]
    exact hinv

/-- Helper: the bound copied + truthy-queued <= total is preserved along any
reachable interleaving. -/
theorem reach_preserves_bound (s0 s : SessionState) (h : Reach s0 s)
    (hinv : s0.copied + countTruthy s0.queue ≤ s0.total) :
    s.copied + countTruthy s.queue ≤ s.total := by
  induction h with
  | refl => exact hinv
  | tail hab hbc ih => exact step_preserves_bound _ _ hbc ih

/-- Helper: planning one file queues at most one task and pays for each queued
task by incrementing total_file_count. -/
theorem process_file_preserves_bound (ps : ThreadedCopy.PlanState)
    (source destination filename : String)
    (h : countTruthy ps.queue ≤ ps.total) :
    countTruthy (ThreadedCopy.process_file ps source destination filename).queue ≤
      (ThreadedCopy.process_file ps source destination filename).total := by
  unfold countTruthy at h ⊢
  simp only [ThreadedCopy.process_file]
  split
  · split
    · split
      · exact h
      · dsimp only
        rw [List.countP_append, List.countP_cons, List.countP_nil]
        split <;> omega
    · exact h
  · dsimp only
    rw [List.countP_append, List.countP_cons, List.countP_nil]
    split <;> omega

/-- C1: copied_file_count never exceeds total_file_count.  Planning keeps the
number of queued truthy tasks bounded by total_file_count (each queued task is
paid for by one increment of the total), and from any state satisfying that
bound every state reachable by interleaved worker passes (copy faults
included), stop-flag writes and sentinel enqueues satisfies copied <= total. -/
theorem copied_le_total :
    (∀ (ps : ThreadedCopy.PlanState) (source destination filename : String),
      countTruthy ps.queue ≤ ps.total →
      countTruthy (ThreadedCopy.process_file ps source destination filename).queue ≤
        (ThreadedCopy.process_file ps source destination filename).total)
    ∧ (∀ s0 s : SessionState,
      s0.copied + countTruthy s0.queue ≤ s0.total → Reach s0 s →
      s.copied ≤ s.total) := by
  constructor
  · exact fun ps source destination filename h =>
      process_file_preserves_bound ps source destination filename h
  · intro s0 s h0 hr
    have h := reach_preserves_bound s0 s hr h0
    omega

/-- Concrete run of copied_le_total: from a planned state with one queued task
and total 1, one successful worker pass reaches a state whose copied count
still respects the total. -/
theorem copied_le_total_witness :
    (SessionState.mk [] 1 1 false
        (fsInsert [("/cards/A/VID_001/f1.bin", Entry.file [1, 2, 3])]
          "/dst/VID_001/f1.bin" (Entry.file [1, 2, 3]))).copied ≤
      (SessionState.mk [] 1 1 false
        (fsInsert [("/cards/A/VID_001/f1.bin", Entry.file [1, 2, 3])]
          "/dst/VID_001/f1.bin" (Entry.file [1, 2, 3]))).total :=
  copied_le_total.2
    (SessionState.mk [CopyTask.mk (some "/cards/A/VID_001/f1.bin") (some "/dst/VID_001/")]
      0 1 false [("/cards/A/VID_001/f1.bin", Entry.file [1, 2, 3])])
    (SessionState.mk [] 1 1 false
      (fsInsert [("/cards/A/VID_001/f1.bin", Entry.file [1, 2, 3])]
        "/dst/VID_001/f1.bin" (Entry.file [1, 2, 3])))
    (by decide)
    (Relation.ReflTransGen.single
      (Step.work _ none (CopyTask.mk (some "/cards/A/VID_001/f1.bin") (some "/dst/VID_001/"))
        [] IterOutcome.continued 1
        (fsInsert [("/cards/A/VID_001/f1.bin", Entry.file [1, 2, 3])]
          "/dst/VID_001/f1.bin" (Entry.file [1, 2, 3]))
        ["Copying /cards/A/VID_001/f1.bin"] rfl (by decide)))

/-- Helper: a successful worker pass moves one task from the queue into the
counter, keeping copied + queue-length and the total unchanged. -/
theorem okstep_preserves_sum (W : Nat) (s s' : SessionState) (h : OkStep W s s') :
    s'.copied + s'.queue.length = s.copied + s.queue.length ∧ s'.total = s.total := by
  obtain ⟨w, hw, t, rest, fs', lg, hq, hwi, hs'⟩ := h
  subst hs'
  refine ⟨?_, rfl⟩
  dsimp only
  rw [hq, List.length_cons]
  omega

/-- Helper: copied + queue-length and the total are invariant along any
sequence of successful worker passes. -/
theorem okreach_preserves_sum (W : Nat) (s0 s : SessionState)
    (h : Relation.ReflTransGen (OkStep W) s0 s) :
    s.copied + s.queue.length = s0.copied + s0.queue.length ∧ s.total = s0.total := by
  induction h with
  | refl => exact ⟨rfl, rfl⟩
  | tail hab hbc ih =>
    have hs := okstep_preserves_sum _ _ _ hbc
    exact ⟨hs.1.trans ih.1, hs.2.trans ih.2⟩

/-- C7: K tasks submitted to a pool of W workers with K > W: along any
interleaving of successful exclusive worker passes that drains the queue, the
final completed count equals exactly K, with no duplicated and no lost
increment. -/
theorem drain_exact_count (W : Nat) (tasks : List CopyTask) (fs : FS)
    (s : SessionState) (_hW : 0 < W) (_hK : W < tasks.length)
    (hrun : Relation.ReflTransGen (OkStep W)
      (SessionState.mk tasks 0 tasks.length false fs) s)
    (hdrained : s.queue = []) :
    s.copied = tasks.length := by
  have h := (okreach_preserves_sum W _ _ hrun).1
  rw [hdrained] at h
  simpa using h

/-- Concrete run of drain_exact_count: two tasks, one worker, two successful
passes drain the queue and the counter ends at exactly 2. -/
theorem drain_exact_count_witness :
    (SessionState.mk [] 2 2 false
        (fsInsert
          (fsInsert
            [("/cards/A/VID_001/f1.bin", Entry.file [1, 2, 3]),
              ("/cards/B/VID_001/f2.bin", Entry.file [4, 5])]
            "/dst/VID_001/f1.bin" (Entry.file [1, 2, 3]))
          "/dst/VID_001/f2.bin" (Entry.file [4, 5]))).copied = 2 :=
  drain_exact_count 1
    [CopyTask.mk (some "/cards/A/VID_001/f1.bin") (some "/dst/VID_001/"),
      CopyTask.mk (some "/cards/B/VID_001/f2.bin") (some "/dst/VID_001/")]
    [("/cards/A/VID_001/f1.bin", Entry.file [1, 2, 3]),
      ("/cards/B/VID_001/f2.bin", Entry.file [4, 5])]
    (SessionState.mk [] 2 2 false
      (fsInsert
        (fsInsert
          [("/cards/A/VID_001/f1.bin", Entry.file [1, 2, 3]),
            ("/cards/B/VID_001/f2.bin", Entry.file [4, 5])]
          "/dst/VID_001/f1.bin" (Entry.file [1, 2, 3]))
        "/dst/VID_001/f2.bin" (Entry.file [4, 5])))
    (by decide) (by decide)
    (Relation.ReflTransGen.tail
      (Relation.ReflTransGen.single
        (⟨0, by decide, CopyTask.mk (some "/cards/A/VID_001/f1.bin") (some "/dst/VID_001/"),
          [CopyTask.mk (some "/cards/B/VID_001/f2.bin") (some "/dst/VID_001/")],
          fsInsert
            [("/cards/A/VID_001/f1.bin", Entry.file [1, 2, 3]),
              ("/cards/B/VID_001/f2.bin", Entry.file [4, 5])]
            "/dst/VID_001/f1.bin" (Entry.file [1, 2, 3]),
          ["Copying /cards/A/VID_001/f1.bin"], rfl, by decide, rfl⟩ :
          OkStep 1
            (SessionState.mk
              [CopyTask.mk (some "/cards/A/VID_001/f1.bin") (some "/dst/VID_001/"),
                CopyTask.mk (some "/cards/B/VID_001/f2.bin") (some "/dst/VID_001/")]
              0 2 false
              [("/cards/A/VID_001/f1.bin", Entry.file [1, 2, 3]),
                ("/cards/B/VID_001/f2.bin", Entry.file [4, 5])])
            (SessionState.mk
              [CopyTask.mk (some "/cards/B/VID_001/f2.bin") (some "/dst/VID_001/")]
              1 2 false
              (fsInsert
                [("/cards/A/VID_001/f1.bin", Entry.file [1, 2, 3]),
                  ("/cards/B/VID_001/f2.bin", Entry.file [4, 5])]
                "/dst/VID_001/f1.bin" (Entry.file [1, 2, 3])))))
      (⟨0, by decide, CopyTask.mk (some "/cards/B/VID_001/f2.bin") (some "/dst/VID_001/"),
        [],
        fsInsert
          (fsInsert
            [("/cards/A/VID_001/f1.bin", Entry.file [1, 2, 3]),
              ("/cards/B/VID_001/f2.bin", Entry.file [4, 5])]
            "/dst/VID_001/f1.bin" (Entry.file [1, 2, 3]))
          "/dst/VID_001/f2.bin" (Entry.file [4, 5]),
        ["Copying /cards/B/VID_001/f2.bin"], rfl, by decide, rfl⟩ :
        OkStep 1
          (SessionState.mk
            [CopyTask.mk (some "/cards/B/VID_001/f2.bin") (some "/dst/VID_001/")]
            1 2 false
            (fsInsert
              [("/cards/A/VID_001/f1.bin", Entry.file [1, 2, 3]),
                ("/cards/B/VID_001/f2.bin", Entry.file [4, 5])]
              "/dst/VID_001/f1.bin" (Entry.file [1, 2, 3])))
          (SessionState.mk [] 2 2 false
            (fsInsert
              (fsInsert
                [("/cards/A/VID_001/f1.bin", Entry.file [1, 2, 3]),
                  ("/cards/B/VID_001/f2.bin", Entry.file [4, 5])]
                "/dst/VID_001/f1.bin" (Entry.file [1, 2, 3]))
              "/dst/VID_001/f2.bin" (Entry.file [4, 5])))))
    rfl

/-- Helper: folding over a flattened list equals the nested fold. -/
theorem foldl_flatMap_eq {α β γ : Type} (g : α → List β) (f : γ → β → γ)
    (l : List α) (init : γ) :
    (l.flatMap g).foldl f init = l.foldl (fun acc x => (g x).foldl f acc) init := by
  induction l generalizing init with
  | nil => rfl
  | cons a rest ih => simp [List.flatMap_cons, List.foldl_append, ih]

/-- Helper: membership in first_seen matches membership in the input. -/
theorem first_seen_mem (l : List String) (x : String) :
    x ∈ ThreadedCopy.first_seen l ↔ x ∈ l := by
  induction l using ThreadedCopy.first_seen.induct with
  | case1 => simp [ThreadedCopy.first_seen]
  | case2 d rest ih =>
    rw [ThreadedCopy.first_seen]
    simp only [List.mem_cons, ih, List.mem_filter]
    by_cases hx : x = d
    · simp [hx]
    · simp [hx]

/-- Helper: first_seen has no duplicates. -/
theorem first_seen_nodup (l : List String) : (ThreadedCopy.first_seen l).Nodup := by
  induction l using ThreadedCopy.first_seen.induct with
  | case1 =>
    rw [ThreadedCopy.first_seen]
    exact List.nodup_nil
  | case2 d rest ih =>
    rw [ThreadedCopy.first_seen]
    refine List.nodup_cons.mpr ⟨?_, ih⟩
    intro hmem
    rw [first_seen_mem] at hmem
    have h := (List.mem_filter.mp hmem).2
    simp at h

/-- Helper: folding insert_new over any accumulator appends exactly the
first-seen occurrences of the names not already present. -/
theorem foldl_insert_new (l : List String) (acc : List String) :
    l.foldl ThreadedCopy.insert_new acc =
      acc ++ ThreadedCopy.first_seen (l.filter (fun x => decide (x ∉ acc))) := by
  induction l generalizing acc with
  | nil => simp [ThreadedCopy.first_seen]
  | cons d rest ih =>
    rw [List.foldl_cons]
    by_cases hd : d ∈ acc
    · have h1 : ThreadedCopy.insert_new acc d = acc := by
        simp [ThreadedCopy.insert_new, hd]
      have h2 : (d :: rest).filter (fun x => decide (x ∉ acc)) =
          rest.filter (fun x => decide (x ∉ acc)) := by
        simp [hd]
      rw [h1, h2, ih]
    · have h1 : ThreadedCopy.insert_new acc d = acc ++ [d] := by
        simp [ThreadedCopy.insert_new, hd]
      have h2 : (d :: rest).filter (fun x => decide (x ∉ acc)) =
          d :: rest.filter (fun x => decide (x ∉ acc)) := by
        simp [hd]
      rw [h1, ih, h2, ThreadedCopy.first_seen, List.filter_filter]
      have h3 : rest.filter (fun x => decide (x ∉ acc ++ [d])) =
          rest.filter (fun x => decide (x ≠ d) && decide (x ∉ acc)) := by
        apply List.filter_congr
        intro x hx
        by_cases hxa : x ∈ acc <;> by_cases hxd : x = d <;> simp [hxa, hxd]
      rw [h3]
      simp

/-- Helper: ensure_dir keeps the mkdir-call list duplicate-free and inside the
extant-directory list. -/
theorem ensure_dir_invariant (st : ThreadedCopy.MkdirState) (p : String)
    (h1 : st.calls.Nodup) (h2 : ∀ q ∈ st.calls, q ∈ st.dirs) :
    (ThreadedCopy.ensure_dir st p).calls.Nodup
    ∧ ∀ q ∈ (ThreadedCopy.ensure_dir st p).calls,
        q ∈ (ThreadedCopy.ensure_dir st p).dirs := by
  unfold ThreadedCopy.ensure_dir
  split
  · exact ⟨h1, h2⟩
  · rename_i hp
    dsimp only
    constructor
    · rw [List.nodup_append]
      refine ⟨h1, List.nodup_singleton p, ?_⟩
      intro q hq hq'
      rw [List.mem_singleton] at hq'
      subst hq'
      exact hp (h2 q hq)
    · intro q hq
      rw [List.mem_append] at hq ⊢
      rcases hq with hq | hq
      · exact Or.inl (h2 q hq)
      · exact Or.inr hq

/-- Helper: the whole creation pass keeps the mkdir-call list duplicate-free. -/
theorem create_calls_invariant (folders : List String) (target : String)
    (st : ThreadedCopy.MkdirState)
    (h1 : st.calls.Nodup) (h2 : ∀ q ∈ st.calls, q ∈ st.dirs) :
    (ThreadedCopy.create_target_folders st target folders).calls.Nodup
    ∧ ∀ q ∈ (ThreadedCopy.create_target_folders st target folders).calls,
        q ∈ (ThreadedCopy.create_target_folders st target folders).dirs := by
  induction folders generalizing st with
  | nil => exact ⟨h1, h2⟩
  | cons f rest ih =>
    have h := ensure_dir_invariant st (pjoin target f) h1 h2
    exact ih (ThreadedCopy.ensure_dir st (pjoin target f)) h.1 h.2

/-- C8: the planner unions the subdirectory names discovered across all source
roots and all name beginnings into one list equal to the canonical
first-occurrence de-duplication of the full enumeration (first-seen order,
de-duplicated by name), and the target-folder pass calls mkdir at most once
per destination path, creation being a no-op on an already existing
directory. -/
theorem folders_union_dedup (subdirNames : String → List String)
    (sources startswith : List String) (target : String) (dirs0 : List String) :
    ThreadedCopy.collect_folders subdirNames sources startswith =
      ThreadedCopy.first_seen (ThreadedCopy.all_subdirs subdirNames sources startswith)
    ∧ (ThreadedCopy.collect_folders subdirNames sources startswith).Nodup
    ∧ (∀ d, d ∈ ThreadedCopy.collect_folders subdirNames sources startswith ↔
        d ∈ ThreadedCopy.all_subdirs subdirNames sources startswith)
    ∧ (ThreadedCopy.create_target_folders (ThreadedCopy.MkdirState.mk dirs0 []) target
        (ThreadedCopy.collect_folders subdirNames sources startswith)).calls.Nodup
    ∧ (∀ (st : ThreadedCopy.MkdirState) (p : String), p ∈ st.dirs →
        ThreadedCopy.ensure_dir st p = st) := by
  have e1 : (ThreadedCopy.all_subdirs subdirNames sources startswith).foldl
      ThreadedCopy.insert_new [] =
      ThreadedCopy.collect_folders subdirNames sources startswith := by
    unfold ThreadedCopy.all_subdirs ThreadedCopy.collect_folders
    rw [foldl_flatMap_eq]
    apply List.foldl_ext
    intro acc s hs
    exact foldl_flatMap_eq _ _ _ _
  have e2 : (ThreadedCopy.all_subdirs subdirNames sources startswith).foldl
      ThreadedCopy.insert_new [] =
      ThreadedCopy.first_seen (ThreadedCopy.all_subdirs subdirNames sources startswith) := by
    rw [foldl_insert_new]
    simp
  have key : ThreadedCopy.collect_folders subdirNames sources startswith =
      ThreadedCopy.first_seen (ThreadedCopy.all_subdirs subdirNames sources startswith) := by
    rw [← e1, e2]
  refine ⟨key, ?_, ?_, ?_, ?_⟩
  · rw [key]
    exact first_seen_nodup _
  · intro d
    rw [key, first_seen_mem]
  · exact (create_calls_invariant _ target (ThreadedCopy.MkdirState.mk dirs0 [])
      List.nodup_nil (fun q hq => absurd hq (List.not_mem_nil q))).1
  · intro st p hp
    simp [ThreadedCopy.ensure_dir, hp]

/-- Concrete run of folders_union_dedup: creating a destination subfolder whose
path already exists is a no-op (no mkdir call, no error). -/
theorem folders_union_dedup_witness :
    ThreadedCopy.ensure_dir (ThreadedCopy.MkdirState.mk ["/dst/VID_001"] []) "/dst/VID_001" =
      ThreadedCopy.MkdirState.mk ["/dst/VID_001"] [] :=
  (folders_union_dedup (fun _ => []) [] [] "/dst" []).2.2.2.2
    (ThreadedCopy.MkdirState.mk ["/dst/VID_001"] []) "/dst/VID_001" (by decide)

/-- C6 (counterexample): with the external space helpers reporting a
requirement of 2^30 bytes and 2^30 + 1 free bytes, the destination's free
bytes strictly exceed the required sum, yet both values round to 1.0 GB and
the session aborts with the required-vs-available report instead of
starting. -/
theorem space_gate_not_strict_on_bytes :
    GBbytes < GBbytes + 1
    ∧ on_start_space GBbytes (GBbytes + 1) [] = StartResult.aborted 10 10 :=
  ⟨by omega, by decide⟩

/-- C6 (amended): the pre-flight gate compares the byte counts after rounding
each to tenths of a GB: it aborts with the required-vs-available report, never
reaching planning or copying, exactly when the rounded free amount is not
strictly greater than the rounded requirement, and only otherwise starts the
session with its plan. -/
theorem space_gate_rounded (used free : Nat) (plan : List CopyTask) :
    (roundDeci free ≤ roundDeci used →
      on_start_space used free plan =
        StartResult.aborted (roundDeci used) (roundDeci free))
    ∧ (roundDeci used < roundDeci free →
      on_start_space used free plan = StartResult.started plan) := by
  constructor
  · intro h
    simp [on_start_space, h]
  · intro h
    have h2 : ¬ (roundDeci free ≤ roundDeci used) := by omega
    simp [on_start_space, h2]

/-- Concrete run of space_gate_rounded: with 2 GB free against a 1 GB
requirement the session starts. -/
theorem space_gate_rounded_witness :
    on_start_space GBbytes (2 * GBbytes) [] = StartResult.started [] :=
  (space_gate_rounded GBbytes (2 * GBbytes) []).2 (by decide)

/-- C9 (counterexample): at exactly 2 elapsed seconds the reported duration is
int(2) + 1 = 3, while the ceiling with minimum 1 is 2. -/
theorem duration_not_ceiling :
    duration_seconds (2 : ℚ) = 3 ∧ max 1 ⌈(2 : ℚ)⌉ = 2 ∧ ((3 : ℤ) ≠ 2) := by
  refine ⟨?_, ?_, by decide⟩
  · unfold duration_seconds py_int
    rw [if_pos (by norm_num : (0 : ℚ) ≤ 2)]
    rw [show ((2 : ℚ)) = ((2 : ℤ) : ℚ) by norm_num, Int.floor_intCast]
    decide
  · rw [show ((2 : ℚ)) = ((2 : ℤ) : ℚ) by norm_num, Int.ceil_intCast]
    decide

/-- C9 (amended): with at least one planned task the summary line reports the
copied and planned counts and a duration of int(elapsed) + 1 = floor + 1
seconds; this value is always at least 1 and equals the ceiling (with minimum
1) exactly in the case that the elapsed time is not a whole number of
seconds. -/
theorem summary_duration_floor_plus_one (copied total : Nat) (q : ℚ)
    (hq : 0 ≤ q) (ht : 0 < total) :
    finish_message copied total q =
      "\n++ Finished copying " ++ toString copied ++ " of " ++ toString total ++
        " files in " ++ toString (⌊q⌋ + 1) ++ "s. ++\n\n"
    ∧ 1 ≤ duration_seconds q
    ∧ (⌊q⌋ ≠ ⌈q⌉ → duration_seconds q = max 1 ⌈q⌉) := by
  have hfloor : duration_seconds q = ⌊q⌋ + 1 := by
    unfold duration_seconds py_int
    rw [if_pos hq]
  have hf0 : (0 : ℤ) ≤ ⌊q⌋ := Int.floor_nonneg.mpr hq
  refine ⟨?_, ?_, ?_⟩
  · unfold finish_message
    rw [if_pos ht, hfloor]
  · rw [hfloor]
    omega
  · intro hne
    have hceil : ⌈q⌉ ≤ ⌊q⌋ + 1 := Int.ceil_le_floor_add_one q
    have hfc : ⌊q⌋ ≤ ⌈q⌉ := Int.floor_le_ceil q
    have heq : ⌈q⌉ = ⌊q⌋ + 1 := by omega
    have h1 : (1 : ℤ) ≤ ⌈q⌉ := by omega
    rw [hfloor, ← heq, max_eq_right h1]

/-- Concrete run of summary_duration_floor_plus_one at 5/2 elapsed seconds. -/
theorem summary_duration_witness :
    finish_message 3 4 (5 / 2 : ℚ) =
      "\n++ Finished copying " ++ toString (3 : Nat) ++ " of " ++ toString (4 : Nat) ++
        " files in " ++ toString (⌊(5 / 2 : ℚ)⌋ + 1) ++ "s. ++\n\n"
    ∧ 1 ≤ duration_seconds (5 / 2 : ℚ)
    ∧ (⌊(5 / 2 : ℚ)⌋ ≠ ⌈(5 / 2 : ℚ)⌉ →
        duration_seconds (5 / 2 : ℚ) = max 1 ⌈(5 / 2 : ℚ)⌉) :=
  summary_duration_floor_plus_one 3 4 (5 / 2) (by norm_num) (by norm_num)
